import Mathlib

/-!
Shallow embedding of the `pynamodb_extras` package (files
`pynamodb_extras/attributes.py` and `pynamodb_extras/models.py`).

Python strings are modelled as lists of characters, Python `None` as
`Option.none`, and raising code as `Except`-valued functions.  External
collaborators (pynamodb base classes and the `ulid` library) are modelled at
their interface, as used by the code under verification.
-/

namespace PynamodbExtras

/-- Python string values, modelled as lists of characters. -/
abbrev Value := List Char

/-- Python exceptions raised by the embedded code. -/
inductive PyErr where
  | attributeError
  | typeError
  | valueError
  | valueErrorNoData
  deriving DecidableEq, Repr

/-- pynamodb `UnicodeAttribute.serialize` (external base codec): identity on strings. -/
def unicodeSerialize (value : Value) : Value := value

/-- pynamodb `UnicodeAttribute.deserialize` (external base codec): identity on strings. -/
def unicodeDeserialize (value : Value) : Value := value

/-- `PrefixedUnicodeAttribute.serialize`: for a non-None value the configured
prefix is concatenated with the base-serialized value, where the base
serialization is skipped for the empty string; `None` passes through. -/
def prefixedSerialize (pfx : Value) (value : Option Value) : Option Value :=
  match value with
  | some v => some (pfx ++ (if v ≠ [] then unicodeSerialize v else v))
  | none => none

/-- `PrefixedUnicodeAttribute.deserialize`: strips the prefix when the wire
value starts with it, raises `AttributeError` otherwise; `None` passes through. -/
def prefixedDeserialize (pfx : Value) (value : Option Value) : Except PyErr (Option Value) :=
  match value with
  | none => .ok none
  | some v =>
    if pfx.isPrefixOf v then .ok (some (v.drop pfx.length))
    else .error .attributeError

/-- `StaticUnicodeAttribute.serialize`: raises `ValueError` unless the supplied
value equals the configured constant, then base-serializes the constant. -/
def staticSerialize (staticValue : Value) (value : Value) : Except PyErr Value :=
  if value ≠ staticValue then .error .valueError
  else .ok (unicodeSerialize staticValue)

/-- `StaticUnicodeAttribute.deserialize`: raises `ValueError` unless the wire
value equals the configured constant, then base-deserializes the constant. -/
def staticDeserialize (staticValue : Value) (value : Value) : Except PyErr Value :=
  if value ≠ staticValue then .error .valueError
  else .ok (unicodeDeserialize staticValue)

/-- Crockford base32 alphabet used by canonical ULID strings. -/
def crockfordAlphabet : List Char := "0123456789ABCDEFGHJKMNPQRSTVWXYZ".toList

/-- Well-formedness of a canonical ULID string: 26 characters drawn from the
Crockford base32 alphabet. -/
def isCanonicalUlid (s : Value) : Bool :=
  s.length == 26 && s.all (fun c => crockfordAlphabet.contains c)

/-- A value of the external `ulid` library, identified by its canonical string
form (`ulid.str` in the Python code). -/
structure Ulid where
  str : Value
  valid : isCanonicalUlid str = true

/-- The external `ulid.parse`: succeeds exactly on well-formed canonical
strings, returning the identifier they denote. -/
def ulidParse (s : Value) : Except PyErr Ulid :=
  if h : isCanonicalUlid s = true then .ok ⟨s, h⟩ else .error .valueError

/-- `ULIDAttributeMixin.serialize` over the `UnicodeAttribute` base: base-serialize
the canonical string of the identifier. -/
def ulidSerialize (value : Ulid) : Value := unicodeSerialize value.str

/-- `ULIDAttributeMixin.deserialize` over the `UnicodeAttribute` base: parse the
base-deserialized wire string back into an identifier. -/
def ulidDeserialize (value : Value) : Except PyErr Ulid :=
  ulidParse (unicodeDeserialize value)

/-- Values stored per attribute name on a model instance
(pynamodb `attribute_values`); `none` is Python `None`. -/
abbrev Values := List (String × Option Value)

/-- The `only_default` and `source_hash_key` flags of `SourcedAttributeMixin`;
this record is also what a callable source receives as its third argument. -/
structure SourcedFlags where
  onlyDefault : Bool
  sourceHashKey : Bool
  deriving DecidableEq, Repr

/-- The `source` field of `SourcedAttributeMixin`: an attribute name, a
callable of `(value, obj, self)`, or Python `None`. -/
inductive SourceSpec where
  | name (attr : String)
  | callable (f : Option Value → Option Values → SourcedFlags → Option Value)
  | nullSource

/-- Whether `source is None` holds in Python. -/
def SourceSpec.isNullSrc : SourceSpec → Bool
  | .nullSource => true
  | _ => false

/-- A `SourcedAttributeMixin` instance: its flags together with its source. -/
structure SourcedAttr extends SourcedFlags where
  source : SourceSpec

/-- Whether an attribute descriptor is a `SourcedAttributeMixin`, and if so
which one. -/
inductive AttrKind where
  | plain
  | sourced (sa : SourcedAttr)

/-- One attribute descriptor of a record type: its kind together with the
pynamodb `default` / `default_for_new` values and its deserializer. -/
structure AttrDef where
  kind : AttrKind
  default : Option Value
  defaultForNew : Option Value
  deser : Value → Option Value

/-- A record type: the `_hash_keyname` and the attribute descriptors returned
by `get_attributes()`, in declaration order. -/
structure RecordType where
  hashKeyname : String
  attrs : List (String × AttrDef)

/-- Python `getattr(obj, name)` on a pynamodb model: an attribute descriptor
returns the stored value (or `None` when unset); a name with no descriptor
raises `AttributeError`. -/
def getattrE (rt : RecordType) (vals : Values) (nm : String) : Except PyErr (Option Value) :=
  if rt.attrs.any (fun p => p.1 == nm) then .ok ((vals.lookup nm).getD none)
  else .error .attributeError

/-- Python `getattr(obj, name, dflt)`: as `getattrE`, but a missing descriptor
yields the supplied default instead of raising. -/
def getattrD (rt : RecordType) (vals : Values) (nm : String) (dflt : Option Value) : Option Value :=
  if rt.attrs.any (fun p => p.1 == nm) then (vals.lookup nm).getD none else dflt

/-- Python `setattr(obj, name, v)`: update the stored value of the named
attribute. -/
def setattrV (vals : Values) (nm : String) (v : Option Value) : Values :=
  vals.map (fun p => if p.1 == nm then (p.1, v) else p)

/-- `SourcedAttributeMixin.get_source_value(self, obj, value)`:
return `value` when `only_default` holds and the value is present; otherwise
dispatch on the source (hash-key reference, callable, named attribute); a
`None` source without `source_hash_key` raises `TypeError`
(Python `getattr(obj, None)`). -/
def get_source_value (rt : RecordType) (sa : SourcedAttr) (vals : Values)
    (value : Option Value) : Except PyErr (Option Value) :=
  if sa.onlyDefault && value.isSome then .ok value
  else if sa.source.isNullSrc && sa.sourceHashKey then
    .ok (getattrD rt vals rt.hashKeyname (some []))
  else
    match sa.source with
    | .callable f => .ok (f value (some vals) sa.toSourcedFlags)
    | .name s => getattrE rt vals s
    | .nullSource => .error .typeError

/-- The loop body shared shape of `ExtrasModel._container_serialize`: walk the
attribute descriptors in declaration order and, for every sourced attribute,
immediately overwrite its stored value with `get_source_value` read against the
current (already partially updated) instance. -/
def sourcedPassAux (rt : RecordType) : List (String × AttrDef) → Values → Except PyErr Values
  | [], acc => .ok acc
  | p :: rest, acc =>
    match p.2.kind with
    | .plain => sourcedPassAux rt rest acc
    | .sourced sa =>
      match getattrE rt acc p.1 with
      | .error e => .error e
      | .ok cur =>
        match get_source_value rt sa acc cur with
        | .error e => .error e
        | .ok v => sourcedPassAux rt rest (setattrV acc p.1 v)

/-- The sourced-attribute pass of `ExtrasModel._container_serialize`
(models.py lines 31-39): each derivation reads the record as already mutated by
the previous derivations. -/
def container_serialize_sourced (rt : RecordType) (vals : Values) : Except PyErr Values :=
  sourcedPassAux rt rt.attrs vals

/-- Derivation strategy written from the specification text: every
`get_source_value` read is taken against the original unmodified snapshot of
the record and all results are applied at the end (modelled by accumulating the
writes while always reading `orig`). -/
def snapshotPassAux (rt : RecordType) (orig : Values) :
    List (String × AttrDef) → Values → Except PyErr Values
  | [], acc => .ok acc
  | p :: rest, acc =>
    match p.2.kind with
    | .plain => snapshotPassAux rt orig rest acc
    | .sourced sa =>
      match getattrE rt orig p.1 with
      | .error e => .error e
      | .ok cur =>
        match get_source_value rt sa orig cur with
        | .error e => .error e
        | .ok v => snapshotPassAux rt orig rest (setattrV acc p.1 v)

/-- Snapshot-based full-record derivation, as the specification describes it. -/
def container_serialize_snapshot (rt : RecordType) (vals : Values) : Except PyErr Values :=
  snapshotPassAux rt vals rt.attrs vals

/-- `ExtrasModel._set_sourced_attributes` (models.py lines 50-60): like the
serialize-time pass but reading the current value with `getattr(self, name, "")`. -/
def setSourcedAux (rt : RecordType) : List (String × AttrDef) → Values → Except PyErr Values
  | [], acc => .ok acc
  | p :: rest, acc =>
    match p.2.kind with
    | .plain => setSourcedAux rt rest acc
    | .sourced sa =>
      match get_source_value rt sa acc (getattrD rt acc p.1 (some [])) with
      | .error e => .error e
      | .ok v => setSourcedAux rt rest (setattrV acc p.1 v)

/-- `ExtrasModel._set_sourced_attributes` over the full attribute list. -/
def set_sourced_attributes (rt : RecordType) (vals : Values) : Except PyErr Values :=
  setSourcedAux rt rt.attrs vals

/-- pynamodb attribute initialisation (external): defaults
(`default_for_new` only for user-instantiated objects) overridden by the
keyword arguments passed to `__init__`. -/
def setAttributesBase (rt : RecordType) (userInstantiated : Bool)
    (kwargs : List (String × Option Value)) : Values :=
  rt.attrs.map (fun p =>
    (p.1,
      match kwargs.lookup p.1 with
      | some v => v
      | none =>
        if userInstantiated then
          match p.2.defaultForNew with
          | some d => some d
          | none => p.2.default
        else p.2.default))

/-- Model construction: pynamodb `Model.__init__` (external) followed by the
`ExtrasModel._set_attributes` override, which runs `_set_sourced_attributes`
immediately after the base initialisation (models.py lines 41-48). -/
def modelInit (rt : RecordType) (userInstantiated : Bool)
    (kwargs : List (String × Option Value)) : Except PyErr Values :=
  set_sourced_attributes rt (setAttributesBase rt userInstantiated kwargs)

/-- pynamodb `_container_deserialize` (external): reset all attribute values,
re-apply plain defaults, then store the deserialized wire value of every
attribute present in the input mapping. -/
def containerDeserialize (rt : RecordType) (data : List (String × Value)) : Values :=
  rt.attrs.map (fun p =>
    (p.1,
      match data.lookup p.1 with
      | some w => p.2.deser w
      | none => p.2.default))

/-- pynamodb `Model._instantiate` (external): construct
`cls(_user_instantiated=False)` and then `_container_deserialize(data)`, which
discards the construction-time attribute values. -/
def instantiate (rt : RecordType) (data : List (String × Value)) : Except PyErr Values :=
  match modelInit rt false [] with
  | .error e => .error e
  | .ok _ => .ok (containerDeserialize rt data)

/-- `ExtrasModel.from_raw_data` (models.py lines 62-75): raise
`ValueError("Received no data to construct object")` when `data is None`,
otherwise `_instantiate` the data; the `_set_sourced_attributes` call is
commented out in the source, so no derivation follows deserialization. -/
def from_raw_data (rt : RecordType) (data : Option (List (String × Value))) :
    Except PyErr Values :=
  match data with
  | none => .error .valueErrorNoData
  | some d => instantiate rt d

/-- The range-key attribute of a record type as used by `_serialize_keys`: its
serializer and, when it is a `SourcedAttributeMixin`, its sourced data. -/
structure RangeAttrInfo where
  ser : Value → Value
  sourced : Option SourcedAttr

/-- The key schema of a record type as used by `_serialize_keys`: the hash-key
serializer and the optional range-key attribute. -/
structure KeySchema where
  hashSer : Value → Value
  rangeAttr : Option RangeAttrInfo

/-- pynamodb `Model._serialize_keys` (external base): serialize the hash key
with the hash-key codec and, when present, the range key with the range-key
codec; a range value without a range-key attribute raises. -/
def base_serialize_keys (ks : KeySchema) (hashKey : Value) (rangeKey : Option Value) :
    Except PyErr (Value × Option Value) :=
  match rangeKey with
  | none => .ok (ks.hashSer hashKey, none)
  | some r =>
    match ks.rangeAttr with
    | some ra => .ok (ks.hashSer hashKey, some (ra.ser r))
    | none => .error .attributeError

/-- `ExtrasModel._serialize_keys` (models.py lines 77-89): after the base
serialization, a still-absent range key of a sourced range attribute with
`not only_default and source_hash_key is True` is filled with the hash-key raw
value serialized through the range-key codec. -/
def serialize_keys (ks : KeySchema) (hashKey : Value) (rangeKey : Option Value) :
    Except PyErr (Value × Option Value) :=
  match base_serialize_keys ks hashKey rangeKey with
  | .error e => .error e
  | .ok (sh, sr) =>
    match ks.rangeAttr with
    | some ra =>
      match sr with
      | none =>
        match ra.sourced with
        | some sa =>
          if !sa.onlyDefault && sa.sourceHashKey then .ok (sh, some (ra.ser hashKey))
          else .ok (sh, none)
        | none => .ok (sh, none)
      | some s => .ok (sh, some s)
    | none => .ok (sh, sr)

/-- One nested field of a `MapAttribute` value: its name, its nullability flag
and its (possibly absent) value. -/
structure MapField where
  name : String
  null : Bool
  value : Option Value
  deriving DecidableEq, Repr

/-- A stored attribute value as inspected by `serialize_value`: a plain value
or a `MapAttribute` instance. -/
inductive AttrValue where
  | plain (v : Value)
  | mapInstance (fields : List MapField)
  deriving DecidableEq, Repr

/-- A value produced by `serialize_value`: a serialized scalar or the dict of
a map attribute. -/
inductive WireOut where
  | str (s : Value)
  | dict (entries : List (String × Option Value))
  deriving DecidableEq, Repr

/-- Errors raised in the projection engine: pynamodb `AttributeNullError` with
its dotted path, plain `ValueError`, and the `AttributeError` signalling
mutually exclusive selectors in `as_dict`. -/
inductive SerErr where
  | nullAttribute (path : List String)
  | valueError
  | mutuallyExclusiveSelectors
  deriving DecidableEq, Repr

/-- An attribute descriptor as consumed by `serialize_value` and `as_dict`:
its wire name, nullability flag, whether it is a `MapAttribute`, its
serializer, and the result of `attr.as_dict()` for map descriptors. -/
structure SAttr where
  attrName : String
  null : Bool
  isMap : Bool
  ser : AttrValue → Option Value
  asDictVal : List (String × Option Value)

/-- pynamodb `MapAttribute.validate(null_check=...)` (external): raises
`AttributeNullError` naming the first required nested field that is absent when
`null_check` holds, and reports well-typedness otherwise. -/
def mapValidate (fields : List MapField) (nullCheck : Bool) : Except SerErr Bool :=
  match fields.find? (fun f => nullCheck && f.value.isNone && !f.null) with
  | some f => .error (.nullAttribute [f.name])
  | none => .ok true

/-- `ExtrasModel.serialize_value` (models.py lines 111-131): validate map
values (prepending the attribute name to any nested `AttributeNullError`
path), serialize present values, and raise `AttributeNullError` on an absent
serialized value of a non-nullable attribute when `null_check` holds. -/
def serialize_value (nm : String) (attr : SAttr) (value : Option AttrValue)
    (nullCheck : Bool) : Except SerErr (Option WireOut) :=
  let step1 : Except SerErr Unit :=
    match value with
    | some (.mapInstance fields) =>
      match mapValidate fields nullCheck with
      | .error (.nullAttribute p) => .error (.nullAttribute (nm :: p))
      | .error e => .error e
      | .ok true => .ok ()
      | .ok false => .error .valueError
    | _ => .ok ()
  match step1 with
  | .error e => .error e
  | .ok _ =>
    let attrValue : Option WireOut :=
      match value with
      | some v => if attr.isMap then some (.dict attr.asDictVal) else (attr.ser v).map .str
      | none => none
    if nullCheck && attrValue.isNone && !attr.null then .error (.nullAttribute [nm])
    else .ok attrValue

/-- The class-level `_dict_serialize_fields` value: either the string
`"__all__"` or a list of names. -/
inductive FieldsSel where
  | strAll
  | list (l : List String)
  deriving DecidableEq, Repr

/-- A model instance as consumed by `as_dict`: its attribute descriptors with
their stored values, and the optional class-level selector attributes. -/
structure DictModel where
  attrs : List (String × SAttr × Option AttrValue)
  dictSerializeFields : Option FieldsSel
  dictSerializeExclude : Option (List String)

/-- `ExtrasModel.as_dict` (models.py lines 133-170): reject simultaneous
class-level or argument-level field selectors, compute the allowed keys from
the exclusion list, the inclusion list or the non-private default, and
serialize each selected attribute. -/
def as_dict (m : DictModel) (fields : Option (List String)) (excl : Option (List String))
    (nullCheck : Bool) (usePythonNames : Bool) :
    Except SerErr (List (String × Option WireOut)) :=
  if m.dictSerializeFields.isSome && m.dictSerializeExclude.isSome then
    .error .mutuallyExclusiveSelectors
  else if fields.isSome && excl.isSome then
    .error .mutuallyExclusiveSelectors
  else
    let fieldsV : Option FieldsSel :=
      if fields.isSome || excl.isSome then fields.map .list
      else some (m.dictSerializeFields.getD .strAll)
    let exclV : Option (List String) :=
      if fields.isSome || excl.isSome then excl
      else some (m.dictSerializeExclude.getD [])
    let cond1 : Bool := match exclV with | some e => e.length > 0 | none => false
    let cond2 : Bool := match fieldsV with
      | some (.list _) => true
      | some .strAll => false
      | none => false
    let allowedKey : String → Bool := fun k =>
      if cond1 then !(k.startsWith "_") && !((exclV.getD []).contains k)
      else if cond2 then
        match fieldsV with
        | some (.list l) => l.contains k
        | _ => false
      else !(k.startsWith "_")
    (m.attrs.filter (fun p => allowedKey p.1)).mapM (fun p =>
      (serialize_value p.1 p.2.1 p.2.2 nullCheck).map (fun v =>
        ((if usePythonNames then p.1 else p.2.1.attrName), v)))

/-- A plain (non-sourced) attribute descriptor with no defaults and the
identity deserializer. -/
def plainDef : AttrDef := ⟨.plain, none, none, fun v => some v⟩

/-- A sourced attribute descriptor with a callable source and both flags
false. -/
def callableDef (f : Option Value → Option Values → SourcedFlags → Option Value) : AttrDef :=
  ⟨.sourced ⟨⟨false, false⟩, .callable f⟩, none, none, fun v => some v⟩

/-- A sourced attribute descriptor with a named-reference source and both
flags false. -/
def namedDef (src : String) : AttrDef :=
  ⟨.sourced ⟨⟨false, false⟩, .name src⟩, none, none, fun v => some v⟩

/-- A callable source that ignores its arguments and returns the string
"new". -/
def fNewC1 : Option Value → Option Values → SourcedFlags → Option Value :=
  fun _ _ _ => some ("new".toList)

/-- Record type for the C1 counterexample: hash key `h`, then `b` (callable
derivation that returns "new"), then `a` (named reference to `b`), with `b`
declared before `a`. -/
def rtC1 : RecordType := ⟨"h", [("h", plainDef), ("b", callableDef fNewC1), ("a", namedDef "b")]⟩

/-- Two-attribute schema with the named-reference attribute `a` declared
before its source `b` (which carries a callable derivation `f`). -/
def rtAB (f : Option Value → Option Values → SourcedFlags → Option Value) : RecordType :=
  ⟨"h", [("h", plainDef), ("a", namedDef "b"), ("b", callableDef f)]⟩

/-- Two-attribute schema with the derived source `b` declared before the
named-reference attribute `a` that points at it. -/
def rtBA (f : Option Value → Option Values → SourcedFlags → Option Value) : RecordType :=
  ⟨"h", [("h", plainDef), ("b", callableDef f), ("a", namedDef "b")]⟩

/-- Record type with a single plain hash-key attribute. -/
def rtC8 : RecordType := ⟨"h", [("h", plainDef)]⟩

/-- Record type for the C6 witness. -/
def rtC6 : RecordType := ⟨"h", [("h", plainDef)]⟩

/-- A sourced attribute with `only_default=True` and a named-reference
source. -/
def saC6 : SourcedAttr := ⟨⟨true, false⟩, .name "h"⟩

/-- A non-nullable, non-map attribute descriptor for the C7 witness. -/
def sAttrC7 : SAttr := ⟨"a", false, false, fun _ => none, []⟩

/-- A sourced attribute descriptor (named reference to the hash key,
`only_default=False`), used by the C10 witness. -/
def srcHDef : AttrDef := ⟨.sourced ⟨⟨false, false⟩, .name "h"⟩, none, none, fun v => some v⟩

/-- Record type whose attribute `s` carries a derivation rule with
`only_default=False`. -/
def rtC10 : RecordType := ⟨"h", [("h", plainDef), ("s", srcHDef)]⟩

/-- A list is a boolean prefix of itself followed by anything. -/
theorem isPrefixOf_append_self (l t : List Char) : l.isPrefixOf (l ++ t) = true := by
  induction l with
  | nil => simp
  | cons c cs ih => simp [List.isPrefixOf, ih]

/-- C4 counterexample: the identifier-prefix codec does not pass the empty
string through unprefixed; `serialize` of `""` with prefix `"p"` yields `"p"`,
not `""`. -/
theorem c4_counterexample :
    prefixedSerialize ("p".toList) (some ([] : Value)) = some ("p".toList) ∧
    some ("p".toList) ≠ some ([] : Value) := by
  exact ⟨rfl, by decide⟩

/-- C4 (amended): `serialize` of `None` is `None`; `serialize` of every
non-None value, the empty string included, starts with the configured prefix;
in particular `serialize("")` is exactly the prefix (only the base encoding,
not the prefixing, is skipped for the empty string). -/
theorem c4_amended (pfx : Value) :
    prefixedSerialize pfx none = none ∧
    (∀ v : Value, ∃ w, prefixedSerialize pfx (some v) = some w ∧ pfx <+: w) ∧
    prefixedSerialize pfx (some []) = some pfx := by
  refine ⟨rfl, fun v => ⟨_, rfl, _, rfl⟩, ?_⟩
  simp [prefixedSerialize]

/-- C5: decode after encode is the identity on every value the base codec
accepts, for the identifier-prefix codec (all values, `None` included), the
fixed-value codec (the configured constant), and the sortable-unique-identifier
codec (every well-formed identifier). -/
theorem c5_roundtrip :
    (∀ (pfx : Value) (v : Option Value),
      prefixedDeserialize pfx (prefixedSerialize pfx v) = .ok v) ∧
    (∀ sv : Value, Except.bind (staticSerialize sv sv) (staticDeserialize sv) = .ok sv) ∧
    (∀ u : Ulid, ulidDeserialize (ulidSerialize u) = .ok u) := by
  refine ⟨?_, ?_, ?_⟩
  · intro pfx v
    cases v with
    | none => rfl
    | some s =>
      have h1 : pfx.isPrefixOf (pfx ++ s) = true := isPrefixOf_append_self pfx s
      simp [prefixedSerialize, prefixedDeserialize, unicodeSerialize, h1, List.drop_left]
  · intro sv
    simp [staticSerialize, staticDeserialize, unicodeSerialize, unicodeDeserialize, Except.bind]
  · intro u
    cases u with
    | mk s hv =>
      simp [ulidSerialize, ulidDeserialize, ulidParse, unicodeSerialize, unicodeDeserialize, hv]

/-- C2: for a range-key attribute carrying a primary-key-reference rule
(`source=None`, `source_hash_key=True`), deriving keys with the range value
absent leaves the range component absent when `only_default` is true, and
fills it with the hash value encoded by the range-key codec when
`only_default` is false; the hash component is the hash value encoded by the
hash-key codec in both cases. -/
theorem c2_range_key_pk_reference (hs rs : Value → Value) (onlyD : Bool) (h : Value) :
    serialize_keys ⟨hs, some ⟨rs, some ⟨⟨onlyD, true⟩, .nullSource⟩⟩⟩ h none
      = .ok (hs h, if onlyD then none else some (rs h)) := by
  cases onlyD <;> rfl

/-- C3: for a range-key attribute carrying a computed (callable) rule with
`only_default=False` and `source_hash_key=False`, key derivation with the
range value absent never invokes the callable and leaves the range component
absent, for every callable `f` — contradicting the claim (and the mixin's own
docstring) that the callable is invoked with the hash value and its result
encoded. -/
theorem c3_computed_rule_not_invoked (hs rs : Value → Value) (h : Value)
    (f : Option Value → Option Values → SourcedFlags → Option Value) :
    serialize_keys ⟨hs, some ⟨rs, some ⟨⟨false, false⟩, .callable f⟩⟩⟩ h none
      = .ok (hs h, none) := rfl

/-- C1 counterexample: with `b` (derived to "new") declared before `a`
(named reference to `b`), the encoding pass of the code sets `a` to `b`'s
freshly derived value "new", not to `b`'s pre-derivation value "old" as the
claim requires; the snapshot strategy the spec demands would yield "old". -/
theorem c1_counterexample :
    container_serialize_sourced rtC1
        [("h", some ("k".toList)), ("b", some ("old".toList)), ("a", none)]
      = .ok [("h", some ("k".toList)), ("b", some ("new".toList)), ("a", some ("new".toList))] ∧
    container_serialize_snapshot rtC1
        [("h", some ("k".toList)), ("b", some ("old".toList)), ("a", none)]
      = .ok [("h", some ("k".toList)), ("b", some ("new".toList)), ("a", some ("old".toList))] ∧
    (some ("new".toList) : Option Value) ≠ some ("old".toList) := by
  exact ⟨rfl, rfl, by decide⟩

/-- C1 (amended): derivations are applied sequentially in declaration order,
each reading the partially updated record: a named-reference attribute `a`
pointing at `b` receives `b`'s pre-derivation value when `a` is declared
before `b`, but `b`'s freshly derived value when `b` is declared before `a`. -/
theorem c1_amended (vh va vb : Option Value)
    (f : Option Value → Option Values → SourcedFlags → Option Value) :
    container_serialize_sourced (rtAB f) [("h", vh), ("a", va), ("b", vb)]
      = .ok [("h", vh), ("a", vb),
             ("b", f vb (some [("h", vh), ("a", vb), ("b", vb)]) ⟨false, false⟩)] ∧
    container_serialize_sourced (rtBA f) [("h", vh), ("b", vb), ("a", va)]
      = .ok [("h", vh),
             ("b", f vb (some [("h", vh), ("b", vb), ("a", va)]) ⟨false, false⟩),
             ("a", f vb (some [("h", vh), ("b", vb), ("a", va)]) ⟨false, false⟩)] :=
  ⟨rfl, rfl⟩

/-- C6: when `only_default` is true, `get_source_value` returns a present
current value unchanged whatever the rule is; with the current value absent it
applies the rule (hash-key reference, callable, or named reference). -/
theorem c6_only_default (rt : RecordType) (sa : SourcedAttr) (vals : Values)
    (value : Option Value) (hod : sa.onlyDefault = true) :
    (∀ w, value = some w → get_source_value rt sa vals value = .ok (some w)) ∧
    (get_source_value rt sa vals none =
      match sa.source with
      | .nullSource =>
        if sa.sourceHashKey then .ok (getattrD rt vals rt.hashKeyname (some []))
        else .error .typeError
      | .callable f => .ok (f none (some vals) sa.toSourcedFlags)
      | .name s => getattrE rt vals s) := by
  constructor
  · intro w hw
    subst hw
    simp [get_source_value, hod]
  · cases hsrc : sa.source with
    | nullSource =>
      cases hshk : sa.sourceHashKey <;>
        simp [get_source_value, hsrc, hshk, SourceSpec.isNullSrc]
    | callable f => simp [get_source_value, hsrc, SourceSpec.isNullSrc]
    | name s => simp [get_source_value, hsrc, SourceSpec.isNullSrc]

/-- C6 witness: with `only_default=True` and a present current value, the
resolver returns the current value unchanged. -/
theorem c6_witness :
    get_source_value rtC6 saC6 [("h", some ("k".toList))] (some ("x".toList))
      = .ok (some ("x".toList)) :=
  (c6_only_default rtC6 saC6 [("h", some ("k".toList))] (some ("x".toList)) rfl).1
    ("x".toList) rfl

/-- C7: for a non-nullable attribute whose value resolves to absent,
`serialize_value` with `null_check=True` raises `AttributeNullError` carrying
the attribute name as path and with `null_check=False` raises nothing; a
nested null inside a map value gets the attribute name prepended to its
path. -/
theorem c7_null_enforcement (nm : String) (attr : SAttr) (hnull : attr.null = false) :
    (serialize_value nm attr none true = .error (.nullAttribute [nm])) ∧
    (serialize_value nm attr none false = .ok none) ∧
    (∀ fields p, mapValidate fields true = .error (.nullAttribute p) →
      serialize_value nm attr (some (.mapInstance fields)) true
        = .error (.nullAttribute (nm :: p))) := by
  refine ⟨?_, ?_, ?_⟩
  · simp [serialize_value, hnull]
  · simp [serialize_value]
  · intro fields p hmv
    simp [serialize_value, hmv]

/-- C7 witness: a required absent attribute raises with path `["a"]`, and a
required absent nested field raises with path `["a", "f"]`. -/
theorem c7_witness :
    serialize_value "a" sAttrC7 none true = .error (.nullAttribute ["a"]) ∧
    serialize_value "a" sAttrC7 (some (.mapInstance [⟨"f", false, none⟩])) true
      = .error (.nullAttribute ["a", "f"]) :=
  ⟨(c7_null_enforcement "a" sAttrC7 rfl).1,
   (c7_null_enforcement "a" sAttrC7 rfl).2.2 [⟨"f", false, none⟩] ["f"] rfl⟩

/-- Attribute lookup never raises the "Received no data" error. -/
theorem getattrE_ne_noData (rt : RecordType) (vals : Values) (nm : String) :
    getattrE rt vals nm ≠ .error .valueErrorNoData := by
  unfold getattrE
  split <;> simp

/-- The derivation resolver never raises the "Received no data" error. -/
theorem get_source_value_ne_noData (rt : RecordType) (sa : SourcedAttr) (vals : Values)
    (value : Option Value) :
    get_source_value rt sa vals value ≠ .error .valueErrorNoData := by
  unfold get_source_value
  split
  · simp
  · split
    · simp
    · split
      · simp
      · exact getattrE_ne_noData rt vals _
      · simp

/-- The construction-time sourced pass never raises the "Received no data"
error. -/
theorem setSourcedAux_ne_noData (rt : RecordType) (l : List (String × AttrDef)) :
    ∀ acc : Values, setSourcedAux rt l acc ≠ .error .valueErrorNoData := by
  induction l with
  | nil =>
    intro acc
    simp [setSourcedAux]
  | cons p rest ih =>
    intro acc
    unfold setSourcedAux
    split
    · exact ih acc
    · rename_i sa hk
      cases hg : get_source_value rt sa acc (getattrD rt acc p.1 (some [])) with
      | error e =>
        simp only [hg]
        intro h
        exact get_source_value_ne_noData rt sa acc _ (by rw [hg, Except.error.inj h])
      | ok v =>
        simp only [hg]
        exact ih _

/-- C8 counterexample: construction from an empty (but present) wire mapping
does not raise the `EmptyInput` error — it returns an instance. -/
theorem c8_counterexample :
    from_raw_data rtC8 (some []) = .ok [("h", none)] ∧
    from_raw_data rtC8 (some []) ≠ .error .valueErrorNoData := by
  refine ⟨rfl, fun h => ?_⟩
  rw [show from_raw_data rtC8 (some []) = .ok [("h", none)] from rfl] at h
  exact Except.noConfusion h

/-- C8 (amended): construction from raw store data fails with the
`EmptyInput` error exactly when the supplied wire mapping is absent (`None`);
a present mapping — empty included — is never rejected with that error. -/
theorem c8_amended (rt : RecordType) (d : List (String × Value)) :
    from_raw_data rt none = .error .valueErrorNoData ∧
    from_raw_data rt (some d) ≠ .error .valueErrorNoData := by
  constructor
  · rfl
  · unfold from_raw_data instantiate
    cases hmi : modelInit rt false [] with
    | error e =>
      simp only [hmi]
      intro h
      exact setSourcedAux_ne_noData rt rt.attrs (setAttributesBase rt false []) (hmi.trans h)
    | ok x => simp [hmi]

/-- C8 witness: on the single-attribute record type, an absent mapping raises
the `EmptyInput` error. -/
theorem c8_witness : from_raw_data rtC8 none = .error .valueErrorNoData :=
  (c8_amended rtC8 []).1

/-- C9: supplying both an inclusion and an exclusion field list to `as_dict`
raises the mutual-exclusion error, for every model instance and every pair of
lists. -/
theorem c9_mutually_exclusive (m : DictModel) (f e : List String) (nc upn : Bool) :
    as_dict m (some f) (some e) nc upn = .error .mutuallyExclusiveSelectors := by
  unfold as_dict
  cases h1 : (m.dictSerializeFields.isSome && m.dictSerializeExclude.isSome) <;> simp [h1]

/-- C10: an instance built by `from_raw_data` carries, for every attribute
present in the wire mapping, exactly the deserialized wire value — whatever
derivation rule the attribute declares; no sourced derivation follows
deserialization. -/
theorem c10_from_raw_no_derivation (rt : RecordType) (data : List (String × Value))
    (vals : Values) (nm : String) (ad : AttrDef) (w : Value)
    (hmem : (nm, ad) ∈ rt.attrs) (hdata : data.lookup nm = some w)
    (hok : from_raw_data rt (some data) = .ok vals) :
    (nm, ad.deser w) ∈ vals := by
  have hv : vals = containerDeserialize rt data := by
    unfold from_raw_data instantiate at hok
    cases hmi : modelInit rt false [] with
    | error e =>
      simp only [hmi] at hok
      exact Except.noConfusion hok
    | ok x =>
      simp only [hmi] at hok
      exact (Except.ok.inj hok).symm
  subst hv
  have hmap := List.mem_map_of_mem
    (fun p : String × AttrDef =>
      (p.1, match data.lookup p.1 with
            | some w0 => p.2.deser w0
            | none => p.2.default)) hmem
  unfold containerDeserialize
  simpa [hdata] using hmap

/-- C10 witness: for the record type whose attribute `s` carries a derivation
rule with `only_default=False`, `from_raw_data` on a mapping holding `s`
returns an instance whose `s` is the deserialized wire value. -/
theorem c10_witness :
    ("s", some ("w".toList)) ∈ ([("h", none), ("s", some ("w".toList))] : Values) :=
  c10_from_raw_no_derivation rtC10 [("s", "w".toList)]
    [("h", none), ("s", some ("w".toList))] "s" srcHDef ("w".toList)
    (List.Mem.tail _ (List.Mem.head _)) rfl rfl

end PynamodbExtras
